import Mathlib

/-!
Verification of the PPSSPP debugger WebSocket core
(`src/Core/Debugger/WebSocket.cpp`).

The file shallowly embeds the per-connection protocol engine of that
translation unit:

* the text/binary frame handlers installed by `HandleDebuggerRequest`
  (lines 91-116), as pure functions from a frame to the set of error
  events emitted and the handler dispatched;
* the subscriber init/teardown passes (lines 56-59, 86-89, 129-135);
* the effect trace of one `HandleDebuggerRequest` call (lines 73-139);
* the process-wide shutdown coordinator (`debuggersConnected`,
  `stopRequested`, `UpdateConnected`, `StopAllDebuggers`,
  lines 61-71 and 141-150) as a small-step transition system in which
  every lock-protected critical section of the C++ code is one atomic
  step, and the condition-variable wait of `StopAllDebuggers` releases
  the lock between steps.

External collaborators (the JSON layer `JsonReader`/`JsonGet`, the
response envelope helpers `DebuggerErrorEvent`/`DebuggerRequest::Fail`
from `WebSocketUtils`, and the subscriber init functions) are not part
of the translation unit; where their behaviour matters they are
modelled from the spec and marked as such in their doc comments.
-/

set_option maxHeartbeats 1000000

/-! ### JSON values and field access -/

/-- Modelled from the spec: a parsed JSON value, as produced by the external
`JsonReader` JSON layer (out of scope of the translation unit). Only object
lookup of string fields is consumed by the code under verification. -/
inductive JsonValue where
  | null
  | bool (b : Bool)
  | num (n : Int)
  | str (s : String)
  | arr (elems : List JsonValue)
  | obj (fields : List (String × JsonValue))

/-- Modelled from the spec: `JsonGet::getString(key, def)` of the external JSON
layer returns the string value of `key` when the value is an object having
that key with a string value, and the default (`nullptr`, here `none`)
otherwise. -/
def JsonValue.getString (v : JsonValue) (key : String) : Option String :=
  match v with
  | JsonValue.obj fields =>
      match fields.lookup key with
      | some (JsonValue.str s) => some s
      | _ => none
  | _ => none

/-- Outcome of running `JsonReader` on the text of one frame (line 92).
`bad raw` models `!reader.ok()` on input `raw`; `good root` models a
successful parse, where `root` is `reader.root()` (`none` when the root is
falsy, cf. the guard `root ? ... : nullptr` on line 99). -/
inductive ParseOutcome where
  | bad (raw : String)
  | good (root : Option JsonValue)

/-- Numeric severity of `LogTypes::LERROR`. Modelled from the spec and from the
comment on lines 36-40 of the source: level 2 = ERROR. -/
def LERROR : Nat := 2

/-- One error event as sent by `ws->Send(DebuggerErrorEvent(...))`:
`{"event":"error","message":message,"level":level}` plus `ticket` copied
from the request when present. -/
structure ErrorEvent where
  message : String
  level : Nat
  ticket : Option String
deriving DecidableEq

/-- The ticket of a (possibly null) request root: modelled from the spec,
error envelopes repeat the request's `ticket` field iff present. -/
def ticketOf (root : Option JsonValue) : Option String :=
  match root with
  | some r => r.getString "ticket"
  | none => none

/-- Modelled from the spec: `DebuggerErrorEvent(message, level, root)` of
`WebSocketUtils` (not part of this translation unit) builds the error
envelope, copying `ticket` from `root` iff the request had one; the
two-argument overload passes a null `root`, hence no ticket. `Fail` on a
`DebuggerRequest` sends the same envelope for the request's root. -/
def DebuggerErrorEvent (message : String) (level : Nat) (root : Option JsonValue) : ErrorEvent :=
  { message := message, level := level, ticket := ticketOf root }

/-- The externally observable outcome of handling one inbound frame:
the error events the core itself sent, which registered handler (if any)
was dispatched (followed by `req.Finish()`), and whether the frame handling
closed the connection (no branch of either frame handler does). -/
structure FrameResult where
  sent : List ErrorEvent
  dispatched : Option String
  close : Bool
deriving DecidableEq

/-- The text handler installed by `ws->SetTextHandler` (lines 91-113),
as a function of the registered event names (the keys of `eventHandlers`)
and the parse outcome of the frame text. -/
def textHandler (handlers : List String) (outcome : ParseOutcome) : FrameResult :=
  match outcome with
  | ParseOutcome.bad _ =>
      { sent := [DebuggerErrorEvent "Bad message: invalid JSON" LERROR none],
        dispatched := none, close := false }
  | ParseOutcome.good root =>
      match (match root with | some r => r.getString "event" | none => none) with
      | none =>
          { sent := [DebuggerErrorEvent "Bad message: no event property" LERROR root],
            dispatched := none, close := false }
      | some event =>
          if event ∈ handlers then
            { sent := [], dispatched := some event, close := false }
          else
            { sent := [DebuggerErrorEvent "Bad message: unknown event" LERROR root],
              dispatched := none, close := false }

/-- The binary handler installed by `ws->SetBinaryHandler` (lines 114-116):
any binary payload produces the single generic error; the handler table is
never consulted. -/
def binaryHandler (_data : List Nat) : FrameResult :=
  { sent := [DebuggerErrorEvent "Bad message" LERROR none],
    dispatched := none, close := false }

/-- One inbound frame: a text frame (represented by its parse outcome) or a
binary frame with its payload bytes. -/
inductive Frame where
  | text (outcome : ParseOutcome)
  | binary (data : List Nat)

/-- Dispatch of one frame to the installed handler (text or binary). -/
def processFrame (handlers : List String) (f : Frame) : FrameResult :=
  match f with
  | Frame.text o => textHandler handlers o
  | Frame.binary d => binaryHandler d

/-- Handling of a sequence of frames on one connection: the handler table is
fixed after connection start and neither frame handler mutates any
per-connection state, so each frame is processed independently. -/
def processFrames (handlers : List String) (fs : List Frame) : List FrameResult :=
  fs.map (processFrame handlers)

/-! ### Subscribers: init and teardown (lines 49-59, 86-89, 129-135) -/

/-- One entry of the `subscribers` vector (lines 51-54): the context the
`init` function pointer returns when called with the handler map (the
registration side effect is external), and whether the `shutdown` function
pointer is non-null. -/
structure SubscriberInfo where
  init : Option Unit
  shutdown : Bool
deriving DecidableEq

/-- Modelled from the spec: `WebSocketCPUCoreInit` (CPUCoreSubscriber, a
separate translation unit) registers its handlers and, having no teardown
operation, "must not have allocated a context": it returns null. -/
def WebSocketCPUCoreInit : Option Unit := none

/-- Modelled from the spec: `WebSocketGameInit` (GameSubscriber, a separate
translation unit) likewise returns a null context. -/
def WebSocketGameInit : Option Unit := none

/-- The `subscribers` vector (lines 56-59): both entries have a null
`shutdown` pointer. -/
def subscribers : List SubscriberInfo :=
  [{ init := WebSocketCPUCoreInit, shutdown := false },
   { init := WebSocketGameInit, shutdown := false }]

/-- The `subscriberData` vector (lines 86-89): the init loop visits the
subscribers in vector order and pushes each returned context. -/
def subscriberData (subs : List SubscriberInfo) : List (Option Unit) :=
  subs.map SubscriberInfo.init

/-- The indices visited by the init loop (lines 87-89), in order. -/
def initVisits (subs : List SubscriberInfo) : List Nat :=
  List.range subs.length

/-- One step of the teardown loop (lines 129-135): either the module's
shutdown function is called on its stored context, or (for a module with a
null shutdown pointer) `assert(!subscriberData[i])` is evaluated; `fired`
records whether that assertion fails, i.e. whether the context is
non-null. -/
inductive TeardownStep where
  | callShutdown (i : Nat) (ctx : Option Unit)
  | assertCheck (i : Nat) (fired : Bool)
deriving DecidableEq

/-- The index a teardown step visits. -/
def teardownIndex : TeardownStep → Nat
  | TeardownStep.callShutdown i _ => i
  | TeardownStep.assertCheck i _ => i

/-- Whether a teardown step is a failing assertion. -/
def assertFired : TeardownStep → Bool
  | TeardownStep.callShutdown _ _ => false
  | TeardownStep.assertCheck _ fired => fired

/-- The teardown loop from index `i` on (lines 129-135), over the list of
(subscriber, stored context) pairs remaining. -/
def teardownFrom (items : List (SubscriberInfo × Option Unit)) (i : Nat) : List TeardownStep :=
  match items with
  | [] => []
  | (info, ctx) :: rest =>
      (if info.shutdown then TeardownStep.callShutdown i ctx
       else TeardownStep.assertCheck i ctx.isSome) :: teardownFrom rest (i + 1)

/-- The whole teardown pass `for (size_t i = 0; i < subscribers.size(); ++i)`
(lines 129-135). -/
def teardownPass (items : List (SubscriberInfo × Option Unit)) : List TeardownStep :=
  teardownFrom items 0

/-! ### The effect trace of one `HandleDebuggerRequest` call (lines 73-139) -/

/-- The broadcaster instances polled each loop iteration (lines 81-83,
120-122), in the order they are polled. -/
inductive BroadcasterId where
  | logger
  | game
  | stepping
deriving DecidableEq

/-- One externally visible effect of `HandleDebuggerRequest`. -/
inductive Effect where
  | setName
  | updConn (delta : Int)
  | subInit (i : Nat)
  | emit (e : ErrorEvent)
  | dispatchEvent (name : String)
  | broadcast (b : BroadcasterId)
  | closeGoingAway
  | teardown (st : TeardownStep)
  | deleteWs
deriving DecidableEq

/-- The effects of handling one frame: the emitted error events, then the
handler dispatch if one occurred. -/
def frameEffects (handlers : List String) (f : Frame) : List Effect :=
  (processFrame handlers f).sent.map Effect.emit ++
    (match (processFrame handlers f).dispatched with
     | some n => [Effect.dispatchEvent n]
     | none => [])

/-- One iteration of the `while (ws->Process(1.0f / 60.0f))` loop
(lines 118-127): the frames delivered by this `Process` call, and the value
of `stopRequested` read at line 124. -/
structure LoopTick where
  frames : List Frame
  stopSeen : Bool

/-- The broadcasts of one loop iteration (lines 120-122), in order. -/
def broadcastEffects : List Effect :=
  [Effect.broadcast BroadcasterId.logger,
   Effect.broadcast BroadcasterId.game,
   Effect.broadcast BroadcasterId.stepping]

/-- The effects of one loop iteration: frame handling inside `Process`, then
the three broadcasts, then `ws->Close(GOING_AWAY)` iff the stop flag was
read as set. -/
def tickEffects (handlers : List String) (t : LoopTick) : List Effect :=
  t.frames.flatMap (frameEffects handlers) ++ broadcastEffects ++
    (if t.stopSeen then [Effect.closeGoingAway] else [])

/-- The effect trace of one `HandleDebuggerRequest` call (lines 73-139).
`upgraded` is whether `CreateAsUpgrade` returned a server (line 74);
on `false` the function returns at line 76 with no effects. Otherwise:
thread naming, `UpdateConnected(1)`, the subscriber init loop, the
processing loop (`ticks`), the frames delivered by the final `Process`
call that reported closure (`finalFrames`), the teardown pass, `delete ws`,
and `UpdateConnected(-1)`. -/
def HandleDebuggerRequest (upgraded : Bool) (handlers : List String)
    (ticks : List LoopTick) (finalFrames : List Frame) : List Effect :=
  if upgraded then
    [Effect.setName, Effect.updConn 1] ++
      (List.range subscribers.length).map Effect.subInit ++
      ticks.flatMap (tickEffects handlers) ++
      finalFrames.flatMap (frameEffects handlers) ++
      (teardownPass (subscribers.zip (subscriberData subscribers))).map Effect.teardown ++
      [Effect.deleteWs, Effect.updConn (-1)]
  else []

/-- The `updConn` content of an effect, for counting connection-count
changes along a trace. -/
def connDelta : Effect → Option Int
  | Effect.updConn d => some d
  | _ => none

/-- The net change to `debuggersConnected` over an effect trace. -/
def netConnectedDelta (tr : List Effect) : Int :=
  (tr.filterMap connDelta).sum

/-! ### The shutdown coordinator as a transition system (lines 61-71, 141-150) -/

/-- The lifecycle of one upgraded connection, as counted by the coordinator:
`running` between its `UpdateConnected(1)` and `UpdateConnected(-1)` calls,
`done` afterwards. -/
inductive ConnPhase where
  | running
  | done
deriving DecidableEq, BEq

/-- Where the (single) caller of `StopAllDebuggers` currently is: `idle`
when no call is in progress (or a call has returned), `waiting` while it is
blocked in `stopCond.wait(guard)` inside the while loop (lines 143-146),
having released `stopLock`. -/
inductive StopperPhase where
  | idle
  | waiting
deriving DecidableEq

/-- The process-wide state: the two shared variables of lines 62-63, the
drain caller's position, and (as instrumentation) the lifecycle phase of
every connection that has completed its upgrade so far. -/
structure SysState where
  debuggersConnected : Int
  stopRequested : Bool
  stopper : StopperPhase
  conns : List ConnPhase
deriving DecidableEq

/-- The number of connections currently in flight. -/
def countRunning : List ConnPhase → Nat
  | [] => 0
  | ConnPhase.running :: t => countRunning t + 1
  | ConnPhase.done :: t => countRunning t

/-- `UpdateConnected(delta)` (lines 67-71): under `stopLock`, add `delta` to
`debuggersConnected` and notify `stopCond`. The notification is represented
by the `stopWake` event being enabled whenever the drain caller is
waiting (C++ condition variables also permit spurious wakeups, and the
caller rechecks its condition in the while loop either way). -/
def UpdateConnected (delta : Int) (s : SysState) : SysState :=
  { s with debuggersConnected := s.debuggersConnected + delta }

/-- The atomic events of the system. Each corresponds to one critical
section of the C++ code executed while holding `stopLock`, except
`observeStop`, the unlocked volatile read of `stopRequested` at line 124
by a connection loop. -/
inductive Ev where
  | connOpen
  | connClose (i : Nat)
  | observeStop (b : Bool)
  | stopEnter
  | stopWake
deriving DecidableEq

/-- The step function. `connOpen` is the `UpdateConnected(1)` call of an
upgraded connection (line 79); `connClose i` is the `UpdateConnected(-1)`
call of running connection `i` (line 138); `observeStop b` is a connection
loop reading `stopRequested == b` (line 124); `stopEnter` is
`StopAllDebuggers` acquiring `stopLock` and running the while-condition
check (lines 142-146: with a nonzero count it sets `stopRequested` and
blocks in `wait`, releasing the lock; with a zero count it skips the loop,
clears `stopRequested` at line 149 and returns); `stopWake` is the waiting
caller reacquiring the lock after a notification and rerunning the same
check. -/
def stepEv : Ev → SysState → Option SysState
  | Ev.connOpen, s =>
      some { UpdateConnected 1 s with conns := s.conns ++ [ConnPhase.running] }
  | Ev.connClose i, s =>
      if s.conns[i]? = some ConnPhase.running then
        some { UpdateConnected (-1) s with conns := s.conns.set i ConnPhase.done }
      else none
  | Ev.observeStop b, s =>
      if s.stopRequested = b then some s else none
  | Ev.stopEnter, s =>
      if s.stopper = StopperPhase.idle then
        if s.debuggersConnected = 0 then
          some { s with stopRequested := false }
        else
          some { s with stopRequested := true, stopper := StopperPhase.waiting }
      else none
  | Ev.stopWake, s =>
      if s.stopper = StopperPhase.waiting then
        if s.debuggersConnected = 0 then
          some { s with stopRequested := false, stopper := StopperPhase.idle }
        else
          some { s with stopRequested := true }
      else none

/-- Some event takes `s` to `t`. -/
def stepRel (s t : SysState) : Prop := ∃ e, stepEv e s = some t

/-- The initial state: static initializers at lines 62-63, no connection,
no drain in progress. -/
def initState : SysState :=
  { debuggersConnected := 0, stopRequested := false,
    stopper := StopperPhase.idle, conns := [] }

/-- Reachability from the initial state. -/
def Reachable (s : SysState) : Prop :=
  Relation.ReflTransGen stepRel initState s

/-- An infinite execution: at each instant `n` the event `evs n` takes
`tr n` to `tr (n + 1)`. -/
def IsTrace (tr : Nat → SysState) (evs : Nat → Ev) : Prop :=
  ∀ n, stepEv (evs n) (tr n) = some (tr (n + 1))

/-- The system invariant: the counter agrees with the number of running
connections, and the stop flag is set only while a drain call is in
progress. -/
def SysInv (s : SysState) : Prop :=
  s.debuggersConnected = (countRunning s.conns : Int) ∧
    (s.stopRequested = true → s.stopper = StopperPhase.waiting)

/-- The state with one connection up and a drain freshly requested: the
drain caller has set the flag and is blocked in `wait`. -/
def drainState : SysState :=
  { debuggersConnected := 1, stopRequested := true,
    stopper := StopperPhase.waiting, conns := [ConnPhase.running] }

/-- The transient state after the last connection has closed but before the
drain caller has woken to recheck: the count is zero while `stopRequested`
is still set. -/
def cexState : SysState :=
  { debuggersConnected := 0, stopRequested := true,
    stopper := StopperPhase.waiting, conns := [ConnPhase.done] }

/-- The quiescent state after the drain completed. -/
def drainedState : SysState :=
  { debuggersConnected := 0, stopRequested := false,
    stopper := StopperPhase.idle, conns := [ConnPhase.done] }

/-- A concrete execution: a connection opens, a drain is requested, the
connection loop observes the flag, closes, and the drain caller wakes,
confirms the zero count and resets the flag; afterwards the system idles
on reads of the (now clear) flag. -/
def wTr : Nat → SysState
  | 0 => initState
  | 1 => { debuggersConnected := 1, stopRequested := false,
           stopper := StopperPhase.idle, conns := [ConnPhase.running] }
  | 2 => drainState
  | 3 => drainState
  | 4 => cexState
  | _ + 5 => drainedState

/-- The events of the concrete execution `wTr`. -/
def wEv : Nat → Ev
  | 0 => Ev.connOpen
  | 1 => Ev.stopEnter
  | 2 => Ev.observeStop true
  | 3 => Ev.connClose 0
  | 4 => Ev.stopWake
  | _ + 5 => Ev.observeStop false

/-! ### Helper lemmas -/

lemma countRunning_push (l : List ConnPhase) :
    countRunning (l ++ [ConnPhase.running]) = countRunning l + 1 := by
  induction l with
  | nil => rfl
  | cons a t ih => cases a <;> simp [countRunning, ih]

lemma countRunning_set_done :
    ∀ (l : List ConnPhase) (i : Nat), l[i]? = some ConnPhase.running →
      countRunning l = countRunning (l.set i ConnPhase.done) + 1 := by
  intro l
  induction l with
  | nil => intro i h; simp at h
  | cons a t ih =>
    intro i h
    cases i with
    | zero =>
      simp at h
      subst h
      simp [countRunning]
    | succ j =>
      simp at h
      have hrec := ih j h
      cases a <;> simp [countRunning, hrec]

lemma stepEv_preserves_inv (e : Ev) (s t : SysState)
    (h : stepEv e s = some t) (hs : SysInv s) : SysInv t := by
  obtain ⟨hcount, hflag⟩ := hs
  cases e with
  | connOpen =>
    simp only [stepEv, UpdateConnected, Option.some.injEq] at h
    subst h
    refine ⟨?_, hflag⟩
    show s.debuggersConnected + 1 = ((countRunning (s.conns ++ [ConnPhase.running]) : Nat) : Int)
    rw [countRunning_push]
    push_cast
    omega
  | connClose i =>
    simp only [stepEv] at h
    split at h
    case isTrue hrun =>
      simp only [UpdateConnected, Option.some.injEq] at h
      subst h
      refine ⟨?_, hflag⟩
      have hcr := countRunning_set_done s.conns i hrun
      show s.debuggersConnected + (-1) = ((countRunning (s.conns.set i ConnPhase.done) : Nat) : Int)
      omega
    case isFalse => exact absurd h (by simp)
  | observeStop b =>
    simp only [stepEv] at h
    split at h
    · simp only [Option.some.injEq] at h
      subst h
      exact ⟨hcount, hflag⟩
    · exact absurd h (by simp)
  | stopEnter =>
    simp only [stepEv] at h
    split at h
    case isTrue hidle =>
      split at h <;> simp only [Option.some.injEq] at h <;> subst h
      · exact ⟨hcount, fun hh => nomatch hh⟩
      · exact ⟨hcount, fun _ => rfl⟩
    case isFalse => exact absurd h (by simp)
  | stopWake =>
    simp only [stepEv] at h
    split at h
    case isTrue hwait =>
      split at h <;> simp only [Option.some.injEq] at h <;> subst h
      · exact ⟨hcount, fun hh => nomatch hh⟩
      · exact ⟨hcount, fun _ => hwait⟩
    case isFalse => exact absurd h (by simp)

lemma reachable_inv (s : SysState) (h : Reachable s) : SysInv s := by
  induction h with
  | refl => exact ⟨rfl, fun hh => nomatch hh⟩
  | tail _ hstep ih =>
    obtain ⟨e, he⟩ := hstep
    exact stepEv_preserves_inv e _ _ he ih

lemma observeStop_guard (b : Bool) (s t : SysState)
    (h : stepEv (Ev.observeStop b) s = some t) : s.stopRequested = b ∧ t = s := by
  simp only [stepEv] at h
  split at h
  case isTrue hb =>
    simp only [Option.some.injEq] at h
    exact ⟨hb, h.symm⟩
  case isFalse => exact absurd h (by simp)

lemma stopRequested_fall (e : Ev) (s t : SysState) (h : stepEv e s = some t)
    (h1 : s.stopRequested = true) (h2 : t.stopRequested = false) :
    s.debuggersConnected = 0 ∧ (e = Ev.stopEnter ∨ e = Ev.stopWake) ∧
      t.stopper = StopperPhase.idle := by
  cases e with
  | connOpen =>
    simp only [stepEv, UpdateConnected, Option.some.injEq] at h
    subst h
    rw [h1] at h2
    exact nomatch h2
  | connClose i =>
    simp only [stepEv] at h
    split at h
    case isTrue =>
      simp only [UpdateConnected, Option.some.injEq] at h
      subst h
      rw [h1] at h2
      exact nomatch h2
    case isFalse => exact absurd h (by simp)
  | observeStop b =>
    obtain ⟨-, ht⟩ := observeStop_guard b s t h
    subst ht
    rw [h1] at h2
    exact nomatch h2
  | stopEnter =>
    simp only [stepEv] at h
    split at h
    case isTrue hidle =>
      split at h <;> simp only [Option.some.injEq] at h <;> subst h
      case isTrue hzero => exact ⟨hzero, Or.inl rfl, hidle⟩
      case isFalse => exact nomatch h2
    case isFalse => exact absurd h (by simp)
  | stopWake =>
    simp only [stepEv] at h
    split at h
    case isTrue hwait =>
      split at h <;> simp only [Option.some.injEq] at h <;> subst h
      case isTrue hzero => exact ⟨hzero, Or.inr rfl, rfl⟩
      case isFalse => exact nomatch h2
    case isFalse => exact absurd h (by simp)

lemma flag_false_needs_drain (tr : Nat → SysState) (evs : Nat → Ev)
    (htr : IsTrace tr evs) (i : Nat) (hi : (tr i).stopRequested = true) :
    ∀ j, i < j → (tr j).stopRequested = false →
      ∃ k, i ≤ k ∧ k < j ∧ (tr k).debuggersConnected = 0 ∧
        (evs k = Ev.stopEnter ∨ evs k = Ev.stopWake) ∧
        (tr (k + 1)).stopper = StopperPhase.idle := by
  intro j
  induction j with
  | zero => intro h; exact absurd h (Nat.not_lt_zero i)
  | succ j ih =>
    intro hij hfalse
    rcases Nat.lt_succ_iff_lt_or_eq.mp hij with hlt | heq
    · by_cases hj : (tr j).stopRequested = true
      · obtain ⟨h0, h1, h2⟩ := stopRequested_fall (evs j) (tr j) (tr (j + 1)) (htr j) hj hfalse
        exact ⟨j, Nat.le_of_lt hlt, Nat.lt_succ_self j, h0, h1, h2⟩
      · have hjf : (tr j).stopRequested = false := by
          cases hb : (tr j).stopRequested
          · rfl
          · exact absurd hb hj
        obtain ⟨k, hk1, hk2, hk3⟩ := ih hlt hjf
        exact ⟨k, hk1, Nat.lt_succ_of_lt hk2, hk3⟩
    · subst heq
      obtain ⟨h0, h1, h2⟩ :=
        stopRequested_fall (evs i) (tr i) (tr (i + 1)) (htr i) hi hfalse
      exact ⟨i, Nat.le_refl i, Nat.lt_succ_self i, h0, h1, h2⟩

lemma step_init_one :
    stepRel initState
      { debuggersConnected := 1, stopRequested := false,
        stopper := StopperPhase.idle, conns := [ConnPhase.running] } :=
  ⟨Ev.connOpen, by decide⟩

lemma step_one_drain :
    stepRel
      { debuggersConnected := 1, stopRequested := false,
        stopper := StopperPhase.idle, conns := [ConnPhase.running] } drainState :=
  ⟨Ev.stopEnter, by decide⟩

lemma step_drain_cex : stepRel drainState cexState :=
  ⟨Ev.connClose 0, by decide⟩

lemma reachable_drainState : Reachable drainState :=
  (Relation.ReflTransGen.refl.tail step_init_one).tail step_one_drain

lemma reachable_cexState : Reachable cexState :=
  reachable_drainState.tail step_drain_cex

lemma wTrace : IsTrace wTr wEv := by
  intro n
  match n with
  | 0 => decide
  | 1 => decide
  | 2 => decide
  | 3 => decide
  | 4 => decide
  | n + 5 => rfl

lemma teardownFrom_map_index :
    ∀ (items : List (SubscriberInfo × Option Unit)) (i : Nat),
      (teardownFrom items i).map teardownIndex = List.range' i items.length := by
  intro items
  induction items with
  | nil => intro i; rfl
  | cons p rest ih =>
    intro i
    obtain ⟨info, ctx⟩ := p
    by_cases hs : info.shutdown <;>
      simp [teardownFrom, hs, teardownIndex, ih, List.range'_succ]

lemma teardownFrom_mem_call :
    ∀ (items : List (SubscriberInfo × Option Unit)) (i j : Nat) (info : SubscriberInfo)
      (ctx : Option Unit), items[j]? = some (info, ctx) → info.shutdown = true →
      TeardownStep.callShutdown (i + j) ctx ∈ teardownFrom items i := by
  intro items
  induction items with
  | nil => intro i j info ctx h; simp at h
  | cons p rest ih =>
    intro i j info ctx h hsd
    obtain ⟨pinfo, pctx⟩ := p
    cases j with
    | zero =>
      simp at h
      obtain ⟨h1, h2⟩ := h
      subst h1
      subst h2
      simp [teardownFrom, hsd]
    | succ j' =>
      simp at h
      have hrec := ih (i + 1) j' info ctx h hsd
      rw [show i + (j' + 1) = (i + 1) + j' by omega]
      exact List.mem_cons_of_mem _ hrec

lemma frameEffects_no_updConn (hs : List String) (f : Frame) :
    (frameEffects hs f).filterMap connDelta = [] := by
  cases hd : (processFrame hs f).dispatched <;>
    simp [frameEffects, hd, List.filterMap_map, connDelta]

lemma flatMap_frameEffects_no_updConn (hs : List String) (fs : List Frame) :
    (fs.flatMap (frameEffects hs)).filterMap connDelta = [] := by
  induction fs with
  | nil => rfl
  | cons f rest ih =>
    simp [List.flatMap_cons, List.filterMap_append, ih, frameEffects_no_updConn hs f]

lemma tickEffects_no_updConn (hs : List String) (t : LoopTick) :
    (tickEffects hs t).filterMap connDelta = [] := by
  cases hstop : t.stopSeen <;>
    simp [tickEffects, hstop, List.filterMap_append, broadcastEffects, connDelta,
      flatMap_frameEffects_no_updConn]

lemma flatMap_tickEffects_no_updConn (hs : List String) (ts : List LoopTick) :
    (ts.flatMap (tickEffects hs)).filterMap connDelta = [] := by
  induction ts with
  | nil => rfl
  | cons t rest ih =>
    simp [List.flatMap_cons, List.filterMap_append, ih, tickEffects_no_updConn hs t]

lemma map_teardown_no_updConn (sts : List TeardownStep) :
    (sts.map Effect.teardown).filterMap connDelta = [] := by
  simp [List.filterMap_map, connDelta]

lemma map_subInit_no_updConn (l : List Nat) :
    (l.map Effect.subInit).filterMap connDelta = [] := by
  simp [List.filterMap_map, connDelta]

lemma filterMap_connDelta_comp_subInit (l : List Nat) :
    List.filterMap (connDelta ∘ Effect.subInit) l = [] := by
  rw [List.filterMap_eq_nil_iff]
  intro a _
  rfl

lemma filterMap_connDelta_comp_teardown (l : List TeardownStep) :
    List.filterMap (connDelta ∘ Effect.teardown) l = [] := by
  rw [List.filterMap_eq_nil_iff]
  intro a _
  rfl

lemma getLast?_append_pair {α : Type} (l : List α) (a b : α) :
    (l ++ [a, b]).getLast? = some b := by
  rw [show l ++ [a, b] = (l ++ [a]) ++ [b] by simp]
  exact List.getLast?_concat _

lemma hdr_filterMap_connDelta (hs : List String) (ticks : List LoopTick)
    (ff : List Frame) :
    (HandleDebuggerRequest true hs ticks ff).filterMap connDelta = [1, -1] := by
  simp [HandleDebuggerRequest, List.filterMap_append, connDelta,
    flatMap_tickEffects_no_updConn, flatMap_frameEffects_no_updConn,
    map_teardown_no_updConn, map_subInit_no_updConn,
    filterMap_connDelta_comp_subInit, filterMap_connDelta_comp_teardown]

/-! ### Claim theorems -/

/-- C1 counterexample: the shutdown-coordinator state with zero connections
and `stopRequested` still set is reachable — after `StopAllDebuggers` has
set the flag and blocked, the last connection's `UpdateConnected(-1)` drives
the count to zero while the flag stays `true` until the waiting caller
reacquires the lock and rechecks. Hence the claimed state invariant
("stop-requested true only while the count is at least one; false whenever
the count reaches zero") is false of the reachable states. -/
theorem stopRequested_zero_count_cex :
    Reachable cexState ∧ cexState.debuggersConnected = 0 ∧
      cexState.stopRequested = true ∧
      ¬ (∀ s : SysState, Reachable s →
          (s.stopRequested = true → 1 ≤ s.debuggersConnected) ∧
          (s.debuggersConnected = 0 → s.stopRequested = false)) := by
  refine ⟨reachable_cexState, rfl, rfl, ?_⟩
  intro hall
  have h2 := (hall cexState reachable_cexState).2 rfl
  exact absurd h2 (by decide)

/-- C1 (amended): in every reachable state of the shutdown coordinator,
`stopRequested` is true only while a drain is in progress — a
`StopAllDebuggers` call has set it and not yet returned (the caller is
still blocked in its wait loop); in particular whenever no drain call is
in progress, and after every return of `StopAllDebuggers`, the flag is
false. (The count may transiently be zero while the flag is still set,
between the last connection closing and the drain caller waking.) -/
theorem stopRequested_only_during_drain :
    ∀ s : SysState, Reachable s → s.stopRequested = true →
      s.stopper = StopperPhase.waiting :=
  fun s h hf => (reachable_inv s h).2 hf

/-- C1 amended-claim witness at the concrete reachable state `drainState`. -/
theorem stopRequested_only_during_drain_witness :
    Reachable drainState ∧ drainState.stopper = StopperPhase.waiting :=
  ⟨reachable_drainState,
   stopRequested_only_during_drain drainState reachable_drainState rfl⟩

/-- C2: in every execution of the step relation, once a connection loop has
observed `stopRequested` as true (at instant `i`), the flag cannot be false
at any later instant `j` unless, strictly in between, the drain caller
inside `StopAllDebuggers` ran its check with the active-connection count
equal to zero and returned (resetting the flag). The flag is never un-set
by any other event. -/
theorem stopRequested_stable_until_drain_confirmed :
    ∀ (tr : Nat → SysState) (evs : Nat → Ev), IsTrace tr evs →
    ∀ i : Nat, evs i = Ev.observeStop true →
    ∀ j : Nat, i < j → (tr j).stopRequested = false →
    ∃ k, i ≤ k ∧ k < j ∧ (tr k).debuggersConnected = 0 ∧
      (evs k = Ev.stopEnter ∨ evs k = Ev.stopWake) ∧
      (tr (k + 1)).stopper = StopperPhase.idle := by
  intro tr evs htr i hobs j hij hj
  have hstep := htr i
  rw [hobs] at hstep
  obtain ⟨hflag, -⟩ := observeStop_guard true (tr i) (tr (i + 1)) hstep
  exact flag_false_needs_drain tr evs htr i hflag j hij hj

/-- C2 witness on the concrete execution `wTr`/`wEv`: the loop observes the
flag at instant 2, the flag is clear at instant 5, and indeed in between
the drain caller confirmed a zero count and returned. -/
theorem stopRequested_stable_until_drain_confirmed_witness :
    ∃ k, 2 ≤ k ∧ k < 5 ∧ (wTr k).debuggersConnected = 0 ∧
      (wEv k = Ev.stopEnter ∨ wEv k = Ev.stopWake) ∧
      (wTr (k + 1)).stopper = StopperPhase.idle :=
  stopRequested_stable_until_drain_confirmed wTr wEv wTrace 2 rfl 5 (by omega) rfl

/-- C3: a `StopAllDebuggers` call entered with a zero active-connection
count returns in its entry step — it skips the while loop, never blocks on
the condition variable (the caller phase stays `idle`, never `waiting`) and
clears `stopRequested`; every return of `StopAllDebuggers` (an entry or
wake step ending with the caller idle) leaves `stopRequested` false; and
the mechanism is reusable: from a post-drain state a new connection can
open and a fresh drain runs to completion again. -/
theorem stopAllDebuggers_zero_nonblocking_resets :
    (∀ s : SysState, s.stopper = StopperPhase.idle → s.debuggersConnected = 0 →
       stepEv Ev.stopEnter s = some { s with stopRequested := false }) ∧
    (∀ (e : Ev) (s t : SysState), stepEv e s = some t →
       (e = Ev.stopEnter ∨ e = Ev.stopWake) → t.stopper = StopperPhase.idle →
       t.stopRequested = false) ∧
    (stepEv Ev.connOpen drainedState =
        some { debuggersConnected := 1, stopRequested := false,
               stopper := StopperPhase.idle,
               conns := [ConnPhase.done, ConnPhase.running] } ∧
     stepEv Ev.stopEnter
        { debuggersConnected := 1, stopRequested := false,
          stopper := StopperPhase.idle,
          conns := [ConnPhase.done, ConnPhase.running] } =
        some { debuggersConnected := 1, stopRequested := true,
               stopper := StopperPhase.waiting,
               conns := [ConnPhase.done, ConnPhase.running] } ∧
     stepEv (Ev.connClose 1)
        { debuggersConnected := 1, stopRequested := true,
          stopper := StopperPhase.waiting,
          conns := [ConnPhase.done, ConnPhase.running] } =
        some { debuggersConnected := 0, stopRequested := true,
               stopper := StopperPhase.waiting,
               conns := [ConnPhase.done, ConnPhase.done] } ∧
     stepEv Ev.stopWake
        { debuggersConnected := 0, stopRequested := true,
          stopper := StopperPhase.waiting,
          conns := [ConnPhase.done, ConnPhase.done] } =
        some { debuggersConnected := 0, stopRequested := false,
               stopper := StopperPhase.idle,
               conns := [ConnPhase.done, ConnPhase.done] }) := by
  refine ⟨?_, ?_, by decide, by decide, by decide, by decide⟩
  · intro s hidle hzero
    simp [stepEv, hidle, hzero]
  · intro e s t h he hidle
    rcases he with he | he <;> subst he
    · simp only [stepEv] at h
      split at h
      case isTrue =>
        split at h <;> simp only [Option.some.injEq] at h <;> subst h
        · rfl
        · exact absurd hidle (by simp)
      case isFalse => exact absurd h (by simp)
    · simp only [stepEv] at h
      split at h
      case isTrue hwait =>
        split at h <;> simp only [Option.some.injEq] at h <;> subst h
        · rfl
        · rw [show ({ s with stopRequested := true } : SysState).stopper = s.stopper
              from rfl, hwait] at hidle
          exact nomatch hidle
      case isFalse => exact absurd h (by simp)

/-- C3 witness: calling `StopAllDebuggers` in the initial state (zero
connections, no drain in progress) returns at once with the flag false. -/
theorem stopAllDebuggers_zero_nonblocking_resets_witness :
    stepEv Ev.stopEnter initState = some { initState with stopRequested := false } :=
  stopAllDebuggers_zero_nonblocking_resets.1 initState rfl rfl

/-- C4: any text frame that parses as JSON whose `event` string is not a
registered handler name produces exactly the unknown-event error (with the
request's ticket echoed, per the error envelope), dispatches no handler,
and does not close the connection. -/
theorem unknown_event_exact_error (hs : List String) (root : JsonValue)
    (name : String) (hev : root.getString "event" = some name)
    (hmem : name ∉ hs) :
    processFrame hs (Frame.text (ParseOutcome.good (some root))) =
      { sent := [DebuggerErrorEvent "Bad message: unknown event" LERROR (some root)],
        dispatched := none, close := false } := by
  simp [processFrame, textHandler, hev, hmem]

/-- C4 witness at a concrete request whose event is unregistered. -/
theorem unknown_event_exact_error_witness :
    processFrame ["cpu.stepping"]
        (Frame.text (ParseOutcome.good
          (some (JsonValue.obj [("event", JsonValue.str "bogus")])))) =
      { sent := [DebuggerErrorEvent "Bad message: unknown event" LERROR
          (some (JsonValue.obj [("event", JsonValue.str "bogus")]))],
        dispatched := none, close := false } :=
  unknown_event_exact_error ["cpu.stepping"]
    (JsonValue.obj [("event", JsonValue.str "bogus")]) "bogus" rfl (by decide)

/-- C5: every binary frame, whatever its bytes, yields exactly one error
event with message "Bad message"; no handler is looked up or dispatched
(`binaryHandler` never consults the handler table) and the connection is
not closed. -/
theorem binary_frame_bad_message :
    ∀ (hs : List String) (d : List Nat),
      processFrame hs (Frame.binary d) =
        { sent := [DebuggerErrorEvent "Bad message" LERROR none],
          dispatched := none, close := false } :=
  fun _ _ => rfl

/-- C6: a text frame whose payload fails JSON parsing yields exactly the
invalid-JSON error, dispatches no handler, does not close the connection,
and leaves the handling of every other frame of the connection unchanged:
processing a frame sequence with the malformed frame inserted handles the
surrounding frames exactly as it would without it. -/
theorem invalid_json_recoverable :
    ∀ (hs : List String) (raw : String) (pre post : List Frame),
      processFrame hs (Frame.text (ParseOutcome.bad raw)) =
        { sent := [DebuggerErrorEvent "Bad message: invalid JSON" LERROR none],
          dispatched := none, close := false } ∧
      processFrames hs (pre ++ Frame.text (ParseOutcome.bad raw) :: post) =
        processFrames hs pre ++
          { sent := [DebuggerErrorEvent "Bad message: invalid JSON" LERROR none],
            dispatched := none, close := false } :: processFrames hs post := by
  intro hs raw pre post
  refine ⟨rfl, ?_⟩
  simp [processFrames, processFrame, textHandler]

/-- C7: the teardown pass visits the subscribers at the same indices, in
the same order, as the init loop; every subscriber with a non-null
shutdown pointer has its shutdown called on its stored context; and for
the concrete `subscribers` vector (whose two modules declare no shutdown),
every stored context is null, so the teardown assertion never fires. -/
theorem teardown_order_and_null_contexts :
    (∀ subs : List SubscriberInfo,
       (teardownPass (subs.zip (subscriberData subs))).map teardownIndex =
         initVisits subs) ∧
    (∀ (items : List (SubscriberInfo × Option Unit)) (j : Nat)
       (info : SubscriberInfo) (ctx : Option Unit),
       items[j]? = some (info, ctx) → info.shutdown = true →
       TeardownStep.callShutdown j ctx ∈ teardownPass items) ∧
    (∀ st ∈ teardownPass (subscribers.zip (subscriberData subscribers)),
       assertFired st = false) := by
  refine ⟨?_, ?_, by decide⟩
  · intro subs
    rw [teardownPass, teardownFrom_map_index, initVisits, List.range_eq_range']
    congr 1
    simp [subscriberData]
  · intro items j info ctx h hsd
    have := teardownFrom_mem_call items 0 j info ctx h hsd
    simpa [teardownPass] using this

/-- C7 witness: the order property at the concrete `subscribers` vector, the
shutdown-call property at a one-module list that does declare a shutdown,
and the assertion property at the first teardown step. -/
theorem teardown_order_and_null_contexts_witness :
    (teardownPass (subscribers.zip (subscriberData subscribers))).map teardownIndex =
        initVisits subscribers ∧
    TeardownStep.callShutdown 0 (some ()) ∈
      teardownPass [({ init := some (), shutdown := true }, some ())] ∧
    assertFired (TeardownStep.assertCheck 0 false) = false :=
  ⟨teardown_order_and_null_contexts.1 subscribers,
   teardown_order_and_null_contexts.2.1
     [({ init := some (), shutdown := true }, some ())] 0
     { init := some (), shutdown := true } (some ()) rfl rfl,
   teardown_order_and_null_contexts.2.2 (TeardownStep.assertCheck 0 false) (by decide)⟩

/-- C8: when `CreateAsUpgrade` returns null, `HandleDebuggerRequest` returns
immediately with an empty effect trace: the connection count is unchanged
(net delta zero, and no `UpdateConnected` call at all), no subscriber init
runs, and nothing is sent. -/
theorem upgrade_failed_no_side_effects :
    ∀ (hs : List String) (ticks : List LoopTick) (ff : List Frame),
      HandleDebuggerRequest false hs ticks ff = [] ∧
      netConnectedDelta (HandleDebuggerRequest false hs ticks ff) = 0 ∧
      (∀ d : Int, Effect.updConn d ∉ HandleDebuggerRequest false hs ticks ff) ∧
      (∀ i : Nat, Effect.subInit i ∉ HandleDebuggerRequest false hs ticks ff) ∧
      (∀ e : ErrorEvent, Effect.emit e ∉ HandleDebuggerRequest false hs ticks ff) := by
  intro hs ticks ff
  refine ⟨rfl, rfl, ?_, ?_, ?_⟩ <;> intro x <;> simp [HandleDebuggerRequest]

/-- C9: the invalid-JSON error is built without any reference to the
request payload: the frame result is independent of the malformed text,
and no error event it emits carries a `ticket` field, whatever
ticket-like fragment the text contained. -/
theorem invalid_json_error_no_ticket :
    ∀ (hs : List String) (raw : String),
      processFrame hs (Frame.text (ParseOutcome.bad raw)) =
        processFrame hs (Frame.text (ParseOutcome.bad "")) ∧
      ∀ e ∈ (processFrame hs (Frame.text (ParseOutcome.bad raw))).sent,
        e.ticket = none := by
  intro hs raw
  refine ⟨rfl, ?_⟩
  intro e he
  simp [processFrame, textHandler] at he
  subst he
  rfl

/-- C9 witness at a malformed text containing a ticket-like fragment. -/
theorem invalid_json_error_no_ticket_witness :
    processFrame [] (Frame.text (ParseOutcome.bad "garbage ticket 123")) =
        processFrame [] (Frame.text (ParseOutcome.bad "")) ∧
    (DebuggerErrorEvent "Bad message: invalid JSON" LERROR none).ticket = none :=
  ⟨(invalid_json_error_no_ticket [] "garbage ticket 123").1,
   (invalid_json_error_no_ticket [] "garbage ticket 123").2
     (DebuggerErrorEvent "Bad message: invalid JSON" LERROR none)
     (by simp [processFrame, textHandler])⟩

/-- C10: every upgraded `HandleDebuggerRequest` call changes the counter
exactly twice — by +1 as its second effect, before any subscriber init or
loop work, and by -1 as its very last effect, after teardown — for a net
delta of zero; and consequently, in every reachable state the counter
equals the number of in-flight upgraded connections and is never
negative. -/
theorem connected_count_bracketed_invariant :
    (∀ (hs : List String) (ticks : List LoopTick) (ff : List Frame),
       (HandleDebuggerRequest true hs ticks ff).filterMap connDelta = [1, -1] ∧
       (HandleDebuggerRequest true hs ticks ff).take 2 =
         [Effect.setName, Effect.updConn 1] ∧
       (HandleDebuggerRequest true hs ticks ff).getLast? =
         some (Effect.updConn (-1)) ∧
       netConnectedDelta (HandleDebuggerRequest true hs ticks ff) = 0) ∧
    (∀ s : SysState, Reachable s →
       s.debuggersConnected = (countRunning s.conns : Int) ∧
       0 ≤ s.debuggersConnected) := by
  constructor
  · intro hs ticks ff
    refine ⟨hdr_filterMap_connDelta hs ticks ff, rfl, ?_, ?_⟩
    · rw [show HandleDebuggerRequest true hs ticks ff =
          ([Effect.setName, Effect.updConn 1] ++
            (List.range subscribers.length).map Effect.subInit ++
            ticks.flatMap (tickEffects hs) ++
            ff.flatMap (frameEffects hs) ++
            (teardownPass (subscribers.zip (subscriberData subscribers))).map
              Effect.teardown) ++ [Effect.deleteWs, Effect.updConn (-1)] by
          simp [HandleDebuggerRequest]]
      exact getLast?_append_pair _ _ _
    · rw [netConnectedDelta, hdr_filterMap_connDelta]
      rfl
  · intro s h
    have hinv := reachable_inv s h
    refine ⟨hinv.1, ?_⟩
    rw [hinv.1]
    exact Int.natCast_nonneg _

/-- C10 witness: the bracketing at a concrete call and the invariant at the
initial state. -/
theorem connected_count_bracketed_invariant_witness :
    (HandleDebuggerRequest true [] [] []).filterMap connDelta = [1, -1] ∧
    initState.debuggersConnected = (countRunning initState.conns : Int) ∧
    0 ≤ initState.debuggersConnected :=
  ⟨(connected_count_bracketed_invariant.1 [] [] []).1,
   (connected_count_bracketed_invariant.2 initState Relation.ReflTransGen.refl).1,
   (connected_count_bracketed_invariant.2 initState Relation.ReflTransGen.refl).2⟩
